import Mathlib

/-!
Shallow embedding of the regulation decision engine of `rvik_razor`
(`custom_components/rvik_razor/coordinator.py` together with the `Load`
data model of `custom_components/rvik_razor/const.py`).

Python floats are modelled as exact rationals (`ℚ`); `None`-able values
as `Option`; the decision dictionary as the structure `Decision`.  The
human-readable reason string is modelled by the inductive type `Reason`
that records exactly the data interpolated into the corresponding
Python f-string.
-/

namespace RvikRazor

/-- Load types supported by RVik Razor (`const.LoadType`). -/
inductive LoadType where
  | ev_ampere : LoadType
  | switch : LoadType
deriving DecidableEq

/-- Represents a controllable load (`const.Load`).

The fields up to `measured_power_per_ampere` are the dataclass fields of
`const.Load`; `current_switch_state`, `current_ampere` and
`current_power_kw` are the runtime attributes assigned by
`RvikRazorCoordinator._update_loads_runtime_state`.

`timeout` — Modelled from the spec: the per-load cooldown duration in
seconds ("cooldown duration (seconds; independent per load)", spec §3).
The field declaration is missing from the snapshot's `const.py`
(`coordinator.py` reads `load.timeout` and `config_flow.py` imports
`CONF_LOAD_TIMEOUT` / `DEFAULT_LOAD_TIMEOUT`, which that file does not
define), so it is added here following the spec's words. -/
structure Load where
  name : String
  load_type : LoadType
  priority : Int
  enabled : Bool
  enabled_entity_id : Option String
  power_sensor_entity_id : Option String
  assumed_power_kw : Option ℚ
  ampere_number_entity_id : Option String
  min_ampere : Int
  max_ampere : Int
  phases : Int
  voltage : ℚ
  switch_entity_id : Option String
  switch_inverted : Bool
  last_action_time : ℚ
  measured_power_per_ampere : Option ℚ
  timeout : ℚ
  current_switch_state : Option String
  current_ampere : Option ℚ
  current_power_kw : Option ℚ
deriving DecidableEq

/-- One entry of the reduction-plan list built by
`calculate_regulation_decision` (the dicts returned by
`_calculate_ev_reduction` / `_calculate_switch_reduction`).  The EV dict
has no `new_value` key, modelled by `new_value = none`. -/
structure ReductionPlan where
  load : Load
  type : String
  reduction_kw : ℚ
  new_value : Option String
  needed_reduction : ℚ
deriving DecidableEq

/-- One entry of `loads_on_cooldown_with_capacity` inside
`calculate_regulation_decision`. -/
structure CooldownEntry where
  load : Load
  potential_kw : ℚ
  cooldown_remaining : ℚ
deriving DecidableEq

/-- The data interpolated into the `reason` f-strings of
`calculate_regulation_decision`; string formatting itself is not
modelled, only the interpolated values. -/
inductive Reason where
  | needReduction (needed_kw : ℚ) (planned_loads : Nat) : Reason
  | waitingForCooldown (needed_kw : ℚ) (cooldown_names : List String)
      (potential_kw : ℚ) (next_available_s : ℚ) : Reason
  | noLoadsAvailable (needed_kw : ℚ) : Reason
  | holdingHighPower (margin_kwh : ℚ) (power_kw : ℚ) (max_kw : ℚ) : Reason
  | sufficientMargin (margin_kwh : ℚ) (eligible_names : List String) : Reason
  | allLoadsInCooldown : Reason
  | withinSafeRange (projected_kwh : ℚ) (max_kwh : ℚ) : Reason
deriving DecidableEq

/-- The result dictionary of `calculate_regulation_decision`. -/
structure Decision where
  action : String
  loads_to_reduce : List ReductionPlan
  loads_to_restore : List Load
  remaining_reduction : ℚ
  reason : Reason
deriving DecidableEq

/-- kW per ampere for an EV load: the stored measured ratio when
present, else the phase/voltage formula (`coordinator.py` lines
466-475). -/
def ev_power_per_ampere (load : Load) : ℚ :=
  match load.measured_power_per_ampere with
  | some r => r
  | none =>
      if load.phases = 3 then load.voltage * (1732 / 1000) / 1000
      else load.voltage / 1000

/-- Embedding of `coordinator._calculate_load_reduction_potential`. -/
def _calculate_load_reduction_potential (load : Load) : ℚ :=
  match load.load_type with
  | LoadType.switch =>
      let is_consuming :=
        if load.switch_inverted then load.current_switch_state = some "off"
        else load.current_switch_state = some "on"
      if is_consuming then
        match load.current_power_kw with
        | some p => if p > 0 then p else (load.assumed_power_kw.getD 0)
        | none => load.assumed_power_kw.getD 0
      else 0
  | LoadType.ev_ampere =>
      match load.current_power_kw with
      | some p =>
          if p > 0 then p
          else
            match load.current_ampere with
            | some a => if a > 0 then a * ev_power_per_ampere load else 0
            | none => 0
      | none =>
          match load.current_ampere with
          | some a => if a > 0 then a * ev_power_per_ampere load else 0
          | none => 0

/-- Embedding of `coordinator._calculate_ev_reduction`: a placeholder plan carrying
the needed reduction, `reduction_kw = 0`. -/
def _calculate_ev_reduction (load : Load) (needed_reduction : ℚ) :
    Option ReductionPlan :=
  some ⟨load, "ev_ampere", 0, none, needed_reduction⟩

/-- Expected reduction for a switch plan: measured power when present
and positive, else assumed power, else 0 (`coordinator.py` lines
545-549). -/
def switch_reduction_kw (load : Load) : ℚ :=
  match load.current_power_kw with
  | some p => if p > 0 then p else load.assumed_power_kw.getD 0
  | none => load.assumed_power_kw.getD 0

/-- Embedding of `coordinator._calculate_switch_reduction`: `none` when the switch is
already in its reduced state; an unknown state is assumed reducible. -/
def _calculate_switch_reduction (load : Load) (needed_reduction : ℚ) :
    Option ReductionPlan :=
  if load.switch_inverted then
    match load.current_switch_state with
    | some s =>
        if s = "on" then none
        else some ⟨load, "switch", switch_reduction_kw load, some "on",
          needed_reduction⟩
    | none =>
        some ⟨load, "switch", switch_reduction_kw load, some "on",
          needed_reduction⟩
  else
    match load.current_switch_state with
    | some s =>
        if s ≠ "on" then none
        else some ⟨load, "switch", switch_reduction_kw load, some "off",
          needed_reduction⟩
    | none =>
        some ⟨load, "switch", switch_reduction_kw load, some "off",
          needed_reduction⟩

/-- Embedding of `coordinator._calculate_load_reduction`. -/
def _calculate_load_reduction (load : Load) (needed_reduction : ℚ) :
    Option ReductionPlan :=
  match load.load_type with
  | LoadType.ev_ampere => _calculate_ev_reduction load needed_reduction
  | LoadType.switch => _calculate_switch_reduction load needed_reduction

/-- Stable insertion step for the ascending-by-priority sort.  Python's
`sorted` is a stable sort; any stable sort on the same key computes the
same list, so a stable insertion sort is used here. -/
def insertByPriority (a : Load) : List Load → List Load
  | [] => [a]
  | b :: l =>
      if a.priority ≤ b.priority then a :: b :: l
      else b :: insertByPriority a l

/-- Embedding of `sorted(loads, key=lambda x: x.priority)` — stable ascending sort. -/
def sortedByPriority : List Load → List Load
  | [] => []
  | a :: l => insertByPriority a (sortedByPriority l)

/-- Stable insertion step for the descending-by-priority sort. -/
def insertByPriorityDesc (a : Load) : List Load → List Load
  | [] => [a]
  | b :: l =>
      if b.priority ≤ a.priority then a :: b :: l
      else b :: insertByPriorityDesc a l

/-- Embedding of `sorted(loads, key=lambda x: x.priority, reverse=True)` — stable
descending sort. -/
def sortedByPriorityDesc : List Load → List Load
  | [] => []
  | a :: l => insertByPriorityDesc a (sortedByPriorityDesc l)

/-- Embedding of `sum(lc["potential_kw"] for lc in loads_on_cooldown_with_capacity)`. -/
def totalPotential (cds : List CooldownEntry) : ℚ :=
  (cds.map (fun c => c.potential_kw)).sum

/-- Embedding of `min(lc["cooldown_remaining"] for lc in ...)`; only ever called on a
non-empty list by the engine. -/
def minCooldownRemaining : List CooldownEntry → ℚ
  | [] => 0
  | c :: cs => cs.foldl (fun m x => min m x.cooldown_remaining) c.cooldown_remaining

/-- The reduction-selection `for` loop of `calculate_regulation_decision`
(`coordinator.py` lines 258-331).  Arguments: remaining loads, the
running `remaining_reduction`, and the accumulated
`loads_on_cooldown_with_capacity`.  Returns the final
`(remaining_reduction, loads_to_reduce, loads_on_cooldown_with_capacity)`. -/
def reduceLoop (current_time : ℚ) :
    List Load → ℚ → List CooldownEntry →
      ℚ × List ReductionPlan × List CooldownEntry
  | [], remaining, cds => (remaining, [], cds)
  | load :: rest, remaining, cds =>
      if remaining ≤ 1 / 100 then (remaining, [], cds)
      else if current_time - load.last_action_time < load.timeout then
        if _calculate_load_reduction_potential load > 0 then
          reduceLoop current_time rest remaining
            (cds ++ [⟨load, _calculate_load_reduction_potential load,
              load.timeout - (current_time - load.last_action_time)⟩])
        else reduceLoop current_time rest remaining cds
      else
        match _calculate_load_reduction load remaining with
        | some reduction_info =>
            if totalPotential cds ≥ remaining then
              reduceLoop current_time rest remaining cds
            else
              let r := reduceLoop current_time rest
                (remaining - reduction_info.reduction_kw) cds
              (r.1, reduction_info :: r.2.1, r.2.2)
        | none => reduceLoop current_time rest remaining cds

/-- The end-of-hour safety check of `calculate_regulation_decision`
(`coordinator.py` lines 219-226). -/
def end_of_hour_safety_trigger (max_hour_kwh : ℚ)
    (current_power_kw remaining_minutes : Option ℚ) : Bool :=
  match current_power_kw, remaining_minutes with
  | some p, some m => decide (m < 5) && decide (p ≥ max_hour_kwh)
  | _, _ => false

/-- Embedding of `coordinator.calculate_regulation_decision`. -/
def calculate_regulation_decision (loads : List Load)
    (needed_reduction_kw projected_end_kwh max_hour_kwh current_time : ℚ)
    (current_power_kw remaining_minutes : Option ℚ)
    (restore_margin cooldown : ℚ) : Decision :=
  if needed_reduction_kw > 1 / 100 then
    let sorted_loads := sortedByPriority (loads.filter (fun l => l.enabled))
    let r := reduceLoop current_time sorted_loads needed_reduction_kw []
    if r.2.1.isEmpty then
      if totalPotential r.2.2 ≥ needed_reduction_kw then
        ⟨"none", r.2.1, [], r.1,
          Reason.waitingForCooldown needed_reduction_kw
            (r.2.2.map (fun c => c.load.name)) (totalPotential r.2.2)
            (minCooldownRemaining r.2.2)⟩
      else
        ⟨"reduce", r.2.1, [], r.1,
          Reason.noLoadsAvailable needed_reduction_kw⟩
    else
      ⟨"reduce", r.2.1, [], r.1,
        Reason.needReduction needed_reduction_kw r.2.1.length⟩
  else if projected_end_kwh < max_hour_kwh - restore_margin then
    if end_of_hour_safety_trigger max_hour_kwh current_power_kw
        remaining_minutes then
      ⟨"none", [], [], 0,
        Reason.holdingHighPower (max_hour_kwh - projected_end_kwh)
          (current_power_kw.getD 0) max_hour_kwh⟩
    else
      let restorable_loads := loads.filter (fun l => l.enabled)
      if restorable_loads.isEmpty then
        ⟨"none", [], [], 0,
          Reason.withinSafeRange projected_end_kwh max_hour_kwh⟩
      else
        let eligible_loads := (sortedByPriorityDesc restorable_loads).filter
          (fun l => !decide (current_time - l.last_action_time < l.timeout))
        if eligible_loads.isEmpty then
          ⟨"none", [], [], 0, Reason.allLoadsInCooldown⟩
        else
          ⟨"restore", [], eligible_loads, 0,
            Reason.sufficientMargin (max_hour_kwh - projected_end_kwh)
              (eligible_loads.map (fun l => l.name))⟩
  else
    ⟨"none", [], [], 0,
      Reason.withinSafeRange projected_end_kwh max_hour_kwh⟩

/-- Embedding of `coordinator.calculate_effective_target`. -/
def calculate_effective_target (max_hour_kwh remaining_minutes : ℚ)
    (available_down_capacity_kw current_power_kw : Option ℚ)
    (base_fraction ramp_start_minutes : ℚ) : ℚ × ℚ :=
  let effective_fraction :=
    match current_power_kw, available_down_capacity_kw with
    | some p, some d =>
        if p > 0 then
          if d / p < 2 / 10 then min base_fraction (70 / 100)
          else base_fraction
        else base_fraction
    | _, _ => base_fraction
  let fraction :=
    if remaining_minutes ≤ ramp_start_minutes then
      effective_fraction +
        (1 - effective_fraction) *
          (1 - remaining_minutes / ramp_start_minutes)
    else effective_fraction
  (max_hour_kwh * fraction, fraction)

/-- The target computation as worded by the spec sentence of claim C8:
the working base is `min(baseFraction, 0.70)` when current power and
down-capacity are both known with current power positive and
`downCapacity/currentPower < 0.2`, else `baseFraction`; the fraction
ramps linearly to 1 once `minutesRemaining ≤ rampStartMinutes`. -/
def calculate_effective_target_spec (max_hour_kwh remaining_minutes : ℚ)
    (available_down_capacity_kw current_power_kw : Option ℚ)
    (base_fraction ramp_start_minutes : ℚ) : ℚ × ℚ :=
  let base :=
    match current_power_kw, available_down_capacity_kw with
    | some power, some down =>
        if 0 < power ∧ down / power < 1 / 5 then min base_fraction (7 / 10)
        else base_fraction
    | _, _ => base_fraction
  let fraction :=
    if remaining_minutes > ramp_start_minutes then base
    else base + (1 - base) * (1 - remaining_minutes / ramp_start_minutes)
  (max_hour_kwh * fraction, fraction)

/-- An enabled, non-inverted switch load used as a concrete test input;
only the arguments vary between test loads. -/
def baseSwitchLoad (name : String) (priority : Int)
    (last_action_time timeout : ℚ) (state : Option String)
    (assumed : Option ℚ) : Load :=
  ⟨name, LoadType.switch, priority, true, none, none, assumed, none, 6, 32,
    3, 400, some "switch.x", false, last_action_time, none, timeout, state,
    none, none⟩

/-- Consuming switch, own timeout 10 s, last acted at 960. -/
def heaterLoad : Load := baseSwitchLoad "heater" 1 960 10 (some "on") (some 2)

/-- Consuming switch, own timeout 120 s, last acted at 980 (on cooldown at
`current_time = 1000`). -/
def coolerLoad : Load := baseSwitchLoad "cooler" 1 980 120 (some "on") (some 2)

/-- Consuming switch, priority 2, long since acted. -/
def boilerLoad : Load := baseSwitchLoad "boiler" 2 0 10 (some "on") (some 3)

/-- Consuming switch, priority 1, never on cooldown. -/
def pumpLoad : Load := baseSwitchLoad "pump" 1 0 0 (some "on") (some 1)

/-- Consuming switch, priority 2, never on cooldown. -/
def fanLoad : Load := baseSwitchLoad "fan" 2 0 0 (some "on") (some 1)

/-- Switch load whose switch state is unknown (`None`). -/
def mysteryLoad : Load := baseSwitchLoad "mystery" 1 0 0 none (some 2)

/-! ### Lemmas about the stable priority sorts -/

theorem mem_insertByPriority {x a : Load} {l : List Load} :
    x ∈ insertByPriority a l ↔ x = a ∨ x ∈ l := by
  induction l with
  | nil => simp [insertByPriority]
  | cons b t ih =>
      simp only [insertByPriority]
      split
      · simp
      · simp [ih]
        tauto

theorem mem_sortedByPriority {x : Load} {l : List Load} :
    x ∈ sortedByPriority l ↔ x ∈ l := by
  induction l with
  | nil => simp [sortedByPriority]
  | cons a t ih => simp [sortedByPriority, mem_insertByPriority, ih]

theorem mem_insertByPriorityDesc {x a : Load} {l : List Load} :
    x ∈ insertByPriorityDesc a l ↔ x = a ∨ x ∈ l := by
  induction l with
  | nil => simp [insertByPriorityDesc]
  | cons b t ih =>
      simp only [insertByPriorityDesc]
      split
      · simp
      · simp [ih]
        tauto

theorem mem_sortedByPriorityDesc {x : Load} {l : List Load} :
    x ∈ sortedByPriorityDesc l ↔ x ∈ l := by
  induction l with
  | nil => simp [sortedByPriorityDesc]
  | cons a t ih => simp [sortedByPriorityDesc, mem_insertByPriorityDesc, ih]

theorem pairwise_insertByPriority {a : Load} {l : List Load}
    (h : l.Pairwise (fun x y => x.priority ≤ y.priority)) :
    (insertByPriority a l).Pairwise (fun x y => x.priority ≤ y.priority) := by
  induction l with
  | nil => simp [insertByPriority]
  | cons b t ih =>
      simp only [insertByPriority]
      rcases List.pairwise_cons.mp h with ⟨hb, ht⟩
      split
      · rename_i hab
        refine List.pairwise_cons.mpr ⟨?_, h⟩
        intro y hy
        rcases List.mem_cons.mp hy with rfl | hyt
        · exact hab
        · exact le_trans hab (hb y hyt)
      · rename_i hab
        refine List.pairwise_cons.mpr ⟨?_, ih ht⟩
        intro y hy
        rcases mem_insertByPriority.mp hy with rfl | hyt
        · exact le_of_not_le hab
        · exact hb y hyt

theorem pairwise_sortedByPriority (l : List Load) :
    (sortedByPriority l).Pairwise (fun x y => x.priority ≤ y.priority) := by
  induction l with
  | nil => simp [sortedByPriority]
  | cons a t ih => exact pairwise_insertByPriority ih

theorem pairwise_insertByPriorityDesc {a : Load} {l : List Load}
    (h : l.Pairwise (fun x y => y.priority ≤ x.priority)) :
    (insertByPriorityDesc a l).Pairwise (fun x y => y.priority ≤ x.priority) := by
  induction l with
  | nil => simp [insertByPriorityDesc]
  | cons b t ih =>
      simp only [insertByPriorityDesc]
      rcases List.pairwise_cons.mp h with ⟨hb, ht⟩
      split
      · rename_i hab
        refine List.pairwise_cons.mpr ⟨?_, h⟩
        intro y hy
        rcases List.mem_cons.mp hy with rfl | hyt
        · exact hab
        · exact le_trans (hb y hyt) hab
      · rename_i hab
        refine List.pairwise_cons.mpr ⟨?_, ih ht⟩
        intro y hy
        rcases mem_insertByPriorityDesc.mp hy with rfl | hyt
        · exact le_of_not_le hab
        · exact hb y hyt

theorem pairwise_sortedByPriorityDesc (l : List Load) :
    (sortedByPriorityDesc l).Pairwise (fun x y => y.priority ≤ x.priority) := by
  induction l with
  | nil => simp [sortedByPriorityDesc]
  | cons a t ih => exact pairwise_insertByPriorityDesc ih

/-- Stability of the ascending sort, expressed through filters: inserting
`a` commutes with filtering one equal-priority class. -/
theorem filter_insertByPriority (k : Int) (a : Load) (l : List Load) :
    (insertByPriority a l).filter (fun x => x.priority == k) =
      if a.priority = k then
        a :: l.filter (fun x => x.priority == k)
      else l.filter (fun x => x.priority == k) := by
  induction l with
  | nil => by_cases hk : a.priority = k <;> simp [insertByPriority, hk]
  | cons b t ih =>
      simp only [insertByPriority]
      split
      · rename_i hab
        by_cases hk : a.priority = k <;> simp [List.filter_cons, hk]
      · rename_i hab
        by_cases hk : a.priority = k
        · have hbk : ¬ b.priority = k := fun hbk => hab (by omega)
          simp [List.filter_cons, hbk, ih, hk]
        · by_cases hbk : b.priority = k <;>
            simp [List.filter_cons, hbk, ih, hk]

/-- Stability of the ascending sort: each equal-priority class appears in
the sorted list in its original order. -/
theorem filter_sortedByPriority (k : Int) (l : List Load) :
    (sortedByPriority l).filter (fun x => x.priority == k) =
      l.filter (fun x => x.priority == k) := by
  induction l with
  | nil => simp [sortedByPriority]
  | cons a t ih =>
      simp only [sortedByPriority, filter_insertByPriority, ih]
      by_cases hk : a.priority = k <;> simp [List.filter_cons, hk]

/-! ### Lemmas about the reduction-selection loop -/

theorem load_of_calculate_load_reduction {load : Load} {needed : ℚ}
    {p : ReductionPlan} (h : _calculate_load_reduction load needed = some p) :
    p.load = load := by
  unfold _calculate_load_reduction _calculate_switch_reduction
    _calculate_ev_reduction at h
  repeat' split at h
  all_goals
    first
      | (injection h with h; subst h; rfl)
      | exact Option.noConfusion h

theorem reduceLoop_plans_sublist (t : ℚ) (L : List Load) :
    ∀ (rem : ℚ) (cds : List CooldownEntry),
      ((reduceLoop t L rem cds).2.1.map (fun p => p.load)).Sublist L := by
  induction L with
  | nil => intro rem cds; simp [reduceLoop]
  | cons load rest ih =>
      intro rem cds
      simp only [reduceLoop]
      split
      · simp
      · split
        · split
          · exact (ih _ _).cons _
          · exact (ih _ _).cons _
        · split
          · rename_i info heq
            split
            · exact (ih _ _).cons _
            · simp only [List.map_cons]
              rw [load_of_calculate_load_reduction heq]
              exact (ih _ _).cons₂ _
          · exact (ih _ _).cons _

theorem reduceLoop_plans_cooldown (t : ℚ) (L : List Load) :
    ∀ (rem : ℚ) (cds : List CooldownEntry) (p : ReductionPlan),
      p ∈ (reduceLoop t L rem cds).2.1 →
        p.load.timeout ≤ t - p.load.last_action_time := by
  induction L with
  | nil => intro rem cds p hp; simp [reduceLoop] at hp
  | cons load rest ih =>
      intro rem cds p hp
      simp only [reduceLoop] at hp
      split at hp
      · simp at hp
      · split at hp
        · split at hp
          · exact ih _ _ _ hp
          · exact ih _ _ _ hp
        · rename_i hcool
          split at hp
          · rename_i info heq
            split at hp
            · exact ih _ _ _ hp
            · simp only [List.mem_cons] at hp
              rcases hp with rfl | hp
              · rw [load_of_calculate_load_reduction heq]
                exact le_of_not_lt hcool
              · exact ih _ _ _ hp
          · exact ih _ _ _ hp

/-! ### Shape lemmas for `calculate_regulation_decision` -/

theorem loads_to_reduce_cases (loads : List Load)
    (needed_reduction_kw projected_end_kwh max_hour_kwh current_time : ℚ)
    (current_power_kw remaining_minutes : Option ℚ)
    (restore_margin cooldown : ℚ) :
    (calculate_regulation_decision loads needed_reduction_kw
        projected_end_kwh max_hour_kwh current_time current_power_kw
        remaining_minutes restore_margin cooldown).loads_to_reduce = [] ∨
      (calculate_regulation_decision loads needed_reduction_kw
          projected_end_kwh max_hour_kwh current_time current_power_kw
          remaining_minutes restore_margin cooldown).loads_to_reduce =
        (reduceLoop current_time
          (sortedByPriority (loads.filter (fun l => l.enabled)))
          needed_reduction_kw []).2.1 := by
  unfold calculate_regulation_decision
  dsimp only
  repeat' split
  all_goals simp

theorem loads_to_restore_cases (loads : List Load)
    (needed_reduction_kw projected_end_kwh max_hour_kwh current_time : ℚ)
    (current_power_kw remaining_minutes : Option ℚ)
    (restore_margin cooldown : ℚ) :
    (calculate_regulation_decision loads needed_reduction_kw
        projected_end_kwh max_hour_kwh current_time current_power_kw
        remaining_minutes restore_margin cooldown).loads_to_restore = [] ∨
      (calculate_regulation_decision loads needed_reduction_kw
          projected_end_kwh max_hour_kwh current_time current_power_kw
          remaining_minutes restore_margin cooldown).loads_to_restore =
        (sortedByPriorityDesc (loads.filter (fun l => l.enabled))).filter
          (fun l => !decide (current_time - l.last_action_time < l.timeout)) := by
  unfold calculate_regulation_decision
  dsimp only
  repeat' split
  all_goals simp

theorem restore_action_shape (loads : List Load)
    (needed_reduction_kw projected_end_kwh max_hour_kwh current_time : ℚ)
    (current_power_kw remaining_minutes : Option ℚ)
    (restore_margin cooldown : ℚ)
    (h : (calculate_regulation_decision loads needed_reduction_kw
        projected_end_kwh max_hour_kwh current_time current_power_kw
        remaining_minutes restore_margin cooldown).action = "restore") :
    (calculate_regulation_decision loads needed_reduction_kw
        projected_end_kwh max_hour_kwh current_time current_power_kw
        remaining_minutes restore_margin cooldown).loads_to_restore =
      (sortedByPriorityDesc (loads.filter (fun l => l.enabled))).filter
        (fun l => !decide (current_time - l.last_action_time < l.timeout)) := by
  revert h
  unfold calculate_regulation_decision
  dsimp only
  repeat' split
  all_goals intro h
  all_goals first | rfl | simp_all

/-! ### Claim theorems -/

/-- Claim C1: for every input — any list of loads (including the empty
list, all loads disabled, or all loads on cooldown), any
`needed_reduction_kw`, `projected_end_kwh`, `max_hour_kwh`,
`current_time`, and any optional `current_power_kw` and
`remaining_minutes` — `calculate_regulation_decision` returns a decision
whose action is one of `"reduce"`, `"restore"`, `"none"`; the embedding
is a total function, so no input reaches an error state. -/
theorem c1_engine_total (loads : List Load)
    (needed_reduction_kw projected_end_kwh max_hour_kwh current_time : ℚ)
    (current_power_kw remaining_minutes : Option ℚ)
    (restore_margin cooldown : ℚ) :
    (calculate_regulation_decision loads needed_reduction_kw
        projected_end_kwh max_hour_kwh current_time current_power_kw
        remaining_minutes restore_margin cooldown).action = "reduce" ∨
      (calculate_regulation_decision loads needed_reduction_kw
          projected_end_kwh max_hour_kwh current_time current_power_kw
          remaining_minutes restore_margin cooldown).action = "restore" ∨
        (calculate_regulation_decision loads needed_reduction_kw
            projected_end_kwh max_hour_kwh current_time current_power_kw
            remaining_minutes restore_margin cooldown).action = "none" := by
  unfold calculate_regulation_decision
  dsimp only
  repeat' split
  all_goals simp

/-- Claim C10: whenever the returned action is `"none"`, both
`loads_to_reduce` and `loads_to_restore` are empty. -/
theorem c10_none_action_empty_plans (loads : List Load)
    (needed_reduction_kw projected_end_kwh max_hour_kwh current_time : ℚ)
    (current_power_kw remaining_minutes : Option ℚ)
    (restore_margin cooldown : ℚ)
    (h : (calculate_regulation_decision loads needed_reduction_kw
        projected_end_kwh max_hour_kwh current_time current_power_kw
        remaining_minutes restore_margin cooldown).action = "none") :
    (calculate_regulation_decision loads needed_reduction_kw
        projected_end_kwh max_hour_kwh current_time current_power_kw
        remaining_minutes restore_margin cooldown).loads_to_reduce = [] ∧
      (calculate_regulation_decision loads needed_reduction_kw
          projected_end_kwh max_hour_kwh current_time current_power_kw
          remaining_minutes restore_margin cooldown).loads_to_restore = [] := by
  revert h
  unfold calculate_regulation_decision
  dsimp only
  repeat' split
  all_goals intro h
  all_goals simp_all

/-- Witness for C10 at a concrete input. -/
theorem c10_none_action_empty_plans_witness :
    (calculate_regulation_decision [] 0 0 0 0 none none 0 120).loads_to_reduce
        = [] ∧
      (calculate_regulation_decision [] 0 0 0 0 none none 0
          120).loads_to_restore = [] :=
  c10_none_action_empty_plans [] 0 0 0 0 none none 0 120
    (by norm_num [calculate_regulation_decision])

/-- Counterexample to claim C2 as stated: with the engine's `cooldown`
parameter `c = 120`, the load `heaterLoad` (own `timeout` 10 s, last
action 40 s ago) satisfies `current_time - last_action_time < c`, yet it
is included in `loads_to_reduce`: the code consults only the per-load
`timeout`, never the `cooldown` parameter. -/
theorem c2_counterexample :
    (1000 : ℚ) - heaterLoad.last_action_time < 120 ∧
      (calculate_regulation_decision [heaterLoad] 1 6 5 1000 none none
          (1 / 10) 120).loads_to_reduce.map (fun p => p.load) =
        [heaterLoad] := by
  constructor
  · norm_num [heaterLoad, baseSwitchLoad]
  · norm_num [calculate_regulation_decision, reduceLoop, sortedByPriority,
      insertByPriority, heaterLoad, baseSwitchLoad,
      _calculate_load_reduction, _calculate_switch_reduction,
      switch_reduction_kw, totalPotential, List.filter]

/-- Claim C2 (amended): the cooldown window is per load — a load with
`current_time - last_action_time < load.timeout` is never included in
`loads_to_reduce` and never in `loads_to_restore` for that tick. -/
theorem c2_per_load_cooldown (loads : List Load)
    (needed_reduction_kw projected_end_kwh max_hour_kwh current_time : ℚ)
    (current_power_kw remaining_minutes : Option ℚ)
    (restore_margin cooldown : ℚ) :
    (∀ p ∈ (calculate_regulation_decision loads needed_reduction_kw
        projected_end_kwh max_hour_kwh current_time current_power_kw
        remaining_minutes restore_margin cooldown).loads_to_reduce,
      p.load.timeout ≤ current_time - p.load.last_action_time) ∧
      (∀ l ∈ (calculate_regulation_decision loads needed_reduction_kw
          projected_end_kwh max_hour_kwh current_time current_power_kw
          remaining_minutes restore_margin cooldown).loads_to_restore,
        l.timeout ≤ current_time - l.last_action_time) := by
  constructor
  · intro p hp
    rcases loads_to_reduce_cases loads needed_reduction_kw
        projected_end_kwh max_hour_kwh current_time current_power_kw
        remaining_minutes restore_margin cooldown with hc | hc
    · rw [hc] at hp
      simp at hp
    · rw [hc] at hp
      exact reduceLoop_plans_cooldown _ _ _ _ _ hp
  · intro l hl
    rcases loads_to_restore_cases loads needed_reduction_kw
        projected_end_kwh max_hour_kwh current_time current_power_kw
        remaining_minutes restore_margin cooldown with hc | hc
    · rw [hc] at hl
      simp at hl
    · rw [hc] at hl
      have hpred := (List.mem_filter.mp hl).2
      simp only [Bool.not_eq_true', decide_eq_false_iff_not, not_lt] at hpred
      exact hpred

/-- Witness for the amended C2: a selected reduction plan and a selected
restoration load both satisfy their own timeout window. -/
theorem c2_per_load_cooldown_witness :
    heaterLoad.timeout ≤ (1000 : ℚ) - heaterLoad.last_action_time ∧
      pumpLoad.timeout ≤ (1000 : ℚ) - pumpLoad.last_action_time := by
  constructor
  · exact (c2_per_load_cooldown [heaterLoad] 1 6 5 1000 none none
      (1 / 10) 120).1 ⟨heaterLoad, "switch", 2, some "off", 1⟩
      (by norm_num [calculate_regulation_decision, reduceLoop,
        sortedByPriority, insertByPriority, heaterLoad, baseSwitchLoad,
        _calculate_load_reduction, _calculate_switch_reduction,
        switch_reduction_kw, totalPotential, List.filter])
  · exact (c2_per_load_cooldown [pumpLoad] 0 0 5 1000 none none
      (1 / 10) 120).2 pumpLoad
      (by norm_num [calculate_regulation_decision, end_of_hour_safety_trigger,
        sortedByPriorityDesc, insertByPriorityDesc, pumpLoad, baseSwitchLoad,
        List.filter])

/-- Claim C6: `loads_to_reduce` contains only enabled, non-cooling-down
loads, in ascending priority order (adjacent plans satisfy
`plan[i].priority ≤ plan[i+1].priority`), and — by stability — each
equal-priority class of selected loads appears in its original input
order (it is a sublist of the input's equal-priority enabled loads). -/
theorem c6_reduce_plans_sorted (loads : List Load)
    (needed_reduction_kw projected_end_kwh max_hour_kwh current_time : ℚ)
    (current_power_kw remaining_minutes : Option ℚ)
    (restore_margin cooldown : ℚ) :
    (∀ p ∈ (calculate_regulation_decision loads needed_reduction_kw
        projected_end_kwh max_hour_kwh current_time current_power_kw
        remaining_minutes restore_margin cooldown).loads_to_reduce,
      p.load.enabled = true ∧
        p.load.timeout ≤ current_time - p.load.last_action_time) ∧
      ((calculate_regulation_decision loads needed_reduction_kw
          projected_end_kwh max_hour_kwh current_time current_power_kw
          remaining_minutes restore_margin cooldown).loads_to_reduce.Pairwise
        (fun a b => a.load.priority ≤ b.load.priority)) ∧
      (∀ k : Int,
        (((calculate_regulation_decision loads needed_reduction_kw
            projected_end_kwh max_hour_kwh current_time current_power_kw
            remaining_minutes restore_margin cooldown).loads_to_reduce.map
              (fun p => p.load)).filter
            (fun l => l.priority == k)).Sublist
          (loads.filter (fun l => l.enabled && (l.priority == k)))) := by
  rcases loads_to_reduce_cases loads needed_reduction_kw projected_end_kwh
      max_hour_kwh current_time current_power_kw remaining_minutes
      restore_margin cooldown with hc | hc <;> rw [hc]
  · simp
  · refine ⟨?_, ?_, ?_⟩
    · intro p hp
      have hmem : p.load ∈ sortedByPriority (loads.filter (fun l => l.enabled)) :=
        List.Sublist.mem (List.mem_map_of_mem (fun p => p.load) hp)
          (reduceLoop_plans_sublist _ _ _ _)
      have henabled := (List.mem_filter.mp (mem_sortedByPriority.mp hmem)).2
      exact ⟨henabled, reduceLoop_plans_cooldown _ _ _ _ _ hp⟩
    · exact (@List.pairwise_map ReductionPlan Load (fun p => p.load)
        (fun x y => x.priority ≤ y.priority) _).mp
        (List.Pairwise.sublist (reduceLoop_plans_sublist _ _ _ _)
          (pairwise_sortedByPriority _))
    · intro k
      have h1 := (reduceLoop_plans_sublist current_time
        (sortedByPriority (loads.filter (fun l => l.enabled)))
        needed_reduction_kw []).filter (fun l => l.priority == k)
      rw [filter_sortedByPriority, List.filter_filter] at h1
      have h2 : (fun l : Load => (l.priority == k) && l.enabled) =
          (fun l : Load => l.enabled && (l.priority == k)) := by
        funext l
        exact Bool.and_comm _ _
      rwa [h2] at h1

/-- Witness for C6: with input order `[fanLoad, pumpLoad]` (priorities 2
then 1) both loads are selected; the properties hold at the concrete
decision. -/
theorem c6_reduce_plans_sorted_witness :
    (pumpLoad.enabled = true ∧
        pumpLoad.timeout ≤ (1000 : ℚ) - pumpLoad.last_action_time) ∧
      ((calculate_regulation_decision [fanLoad, pumpLoad] 3 6 5 1000 none
          none (1 / 10) 120).loads_to_reduce.Pairwise
        (fun a b => a.load.priority ≤ b.load.priority)) ∧
      (((calculate_regulation_decision [fanLoad, pumpLoad] 3 6 5 1000 none
          none (1 / 10) 120).loads_to_reduce.map (fun p => p.load)).filter
          (fun l => l.priority == (1 : Int))).Sublist
        ([fanLoad, pumpLoad].filter
          (fun l => l.enabled && (l.priority == (1 : Int)))) := by
  refine ⟨?_, (c6_reduce_plans_sorted [fanLoad, pumpLoad] 3 6 5 1000 none
    none (1 / 10) 120).2.1, (c6_reduce_plans_sorted [fanLoad, pumpLoad] 3 6
    5 1000 none none (1 / 10) 120).2.2 1⟩
  exact (c6_reduce_plans_sorted [fanLoad, pumpLoad] 3 6 5 1000 none none
    (1 / 10) 120).1 ⟨pumpLoad, "switch", 1, some "off", 3⟩
    (by norm_num [calculate_regulation_decision, reduceLoop,
      sortedByPriority, insertByPriority, pumpLoad, fanLoad, baseSwitchLoad,
      _calculate_load_reduction, _calculate_switch_reduction,
      switch_reduction_kw, totalPotential, List.filter])

/-- Claim C7: whenever the action is `"restore"`, `loads_to_restore` is
exactly the set of enabled loads not on cooldown — the full eligible
list, not a single load — ordered descending by priority. -/
theorem c7_restore_full_eligible_desc (loads : List Load)
    (needed_reduction_kw projected_end_kwh max_hour_kwh current_time : ℚ)
    (current_power_kw remaining_minutes : Option ℚ)
    (restore_margin cooldown : ℚ)
    (h : (calculate_regulation_decision loads needed_reduction_kw
        projected_end_kwh max_hour_kwh current_time current_power_kw
        remaining_minutes restore_margin cooldown).action = "restore") :
    (∀ l : Load,
      l ∈ (calculate_regulation_decision loads needed_reduction_kw
          projected_end_kwh max_hour_kwh current_time current_power_kw
          remaining_minutes restore_margin cooldown).loads_to_restore ↔
        l ∈ loads ∧ l.enabled = true ∧
          l.timeout ≤ current_time - l.last_action_time) ∧
      ((calculate_regulation_decision loads needed_reduction_kw
          projected_end_kwh max_hour_kwh current_time current_power_kw
          remaining_minutes restore_margin
          cooldown).loads_to_restore.Pairwise
        (fun a b => b.priority ≤ a.priority)) := by
  rw [restore_action_shape loads needed_reduction_kw projected_end_kwh
    max_hour_kwh current_time current_power_kw remaining_minutes
    restore_margin cooldown h]
  constructor
  · intro l
    simp only [List.mem_filter, mem_sortedByPriorityDesc,
      Bool.not_eq_true', decide_eq_false_iff_not, not_lt, and_assoc]
  · exact List.Pairwise.sublist (List.filter_sublist _)
      (pairwise_sortedByPriorityDesc _)

/-- Witness for C7 at a concrete restore decision. -/
theorem c7_restore_full_eligible_desc_witness :
    (fanLoad ∈ (calculate_regulation_decision [pumpLoad, fanLoad] 0 0 5
          1000 none none (1 / 10) 120).loads_to_restore ↔
        fanLoad ∈ [pumpLoad, fanLoad] ∧ fanLoad.enabled = true ∧
          fanLoad.timeout ≤ (1000 : ℚ) - fanLoad.last_action_time) ∧
      ((calculate_regulation_decision [pumpLoad, fanLoad] 0 0 5 1000 none
          none (1 / 10) 120).loads_to_restore.Pairwise
        (fun a b => b.priority ≤ a.priority)) := by
  have h : (calculate_regulation_decision [pumpLoad, fanLoad] 0 0 5 1000
      none none (1 / 10) 120).action = "restore" := by
    norm_num [calculate_regulation_decision, end_of_hour_safety_trigger,
      sortedByPriorityDesc, insertByPriorityDesc, pumpLoad, fanLoad,
      baseSwitchLoad, List.filter]
  exact ⟨(c7_restore_full_eligible_desc [pumpLoad, fanLoad] 0 0 5 1000 none
    none (1 / 10) 120 h).1 fanLoad,
    (c7_restore_full_eligible_desc [pumpLoad, fanLoad] 0 0 5 1000 none none
      (1 / 10) 120 h).2⟩

/-- Counterexample to claim C4 as stated: with `remaining_minutes = 2 < 5`
and `current_power_kw = 10 ≥ max_hour_kwh = 5` but
`needed_reduction_kw = 5 > 0.01`, the returned action is `"reduce"`, not
`"none"`: the end-of-hour safety trigger only blocks the restore branch. -/
theorem c4_counterexample :
    (2 : ℚ) < 5 ∧ (5 : ℚ) ≤ 10 ∧
      (calculate_regulation_decision [] 5 0 5 0 (some 10) (some 2) (1 / 10)
          120).action ≠ "none" := by
  refine ⟨by norm_num, by norm_num, ?_⟩
  norm_num [calculate_regulation_decision, reduceLoop, sortedByPriority,
    totalPotential, List.filter]
  decide

/-- Claim C4 (amended): for every input with `needed_reduction_kw ≤ 0.01`,
`remaining_minutes < 5` and `current_power_kw ≥ max_hour_kwh`, the action
is `"none"`, even when the projected energy margin would otherwise allow
restore. -/
theorem c4_end_of_hour_safety (loads : List Load)
    (needed_reduction_kw projected_end_kwh max_hour_kwh current_time : ℚ)
    (p m : ℚ) (restore_margin cooldown : ℚ)
    (h1 : needed_reduction_kw ≤ 1 / 100) (h2 : m < 5)
    (h3 : max_hour_kwh ≤ p) :
    (calculate_regulation_decision loads needed_reduction_kw
        projected_end_kwh max_hour_kwh current_time (some p) (some m)
        restore_margin cooldown).action = "none" := by
  have htrig : end_of_hour_safety_trigger max_hour_kwh (some p) (some m)
      = true := by
    simp [end_of_hour_safety_trigger, h2, h3]
  unfold calculate_regulation_decision
  dsimp only
  rw [if_neg (not_lt.mpr h1)]
  repeat' split
  all_goals rfl

/-- Witness for the amended C4: margin would allow restoring `pumpLoad`,
yet the action is `"none"`. -/
theorem c4_end_of_hour_safety_witness :
    (calculate_regulation_decision [pumpLoad] 0 0 5 1000 (some 10) (some 2)
        (1 / 10) 120).action = "none" :=
  c4_end_of_hour_safety [pumpLoad] 0 0 5 1000 10 2 (1 / 10) 120
    (by norm_num) (by norm_num) (by norm_num)

/-- Counterexample to claim C5 as stated: with `needed_reduction_kw = 0`
and `projected_end_kwh = 4 < max_hour_kwh - restore_margin = 5 - 0.1`,
the action is not `"restore"` when the load list is empty — the second
half of the claim needs an eligible enabled load. -/
theorem c5_counterexample :
    (0 : ℚ) ≤ 1 / 100 ∧ (4 : ℚ) < 5 - 1 / 10 ∧
      (calculate_regulation_decision [] 0 4 5 0 none none (1 / 10)
          120).action ≠ "restore" := by
  refine ⟨by norm_num, by norm_num, ?_⟩
  norm_num [calculate_regulation_decision, end_of_hour_safety_trigger,
    List.filter]
  decide

/-- Claim C5 (amended): with `needed_reduction_kw ≤ 0.01`, projecting
exactly at `max_hour_kwh - restore_margin` yields action `"none"` (the
boundary does not restore), and projecting strictly below the boundary
yields action `"restore"` provided the end-of-hour safety trigger is off
and some enabled load is off cooldown. -/
theorem c5_margin_boundary (loads : List Load)
    (needed_reduction_kw projected_end_kwh max_hour_kwh current_time : ℚ)
    (current_power_kw remaining_minutes : Option ℚ)
    (restore_margin cooldown : ℚ)
    (hneed : needed_reduction_kw ≤ 1 / 100) :
    (projected_end_kwh = max_hour_kwh - restore_margin →
      (calculate_regulation_decision loads needed_reduction_kw
          projected_end_kwh max_hour_kwh current_time current_power_kw
          remaining_minutes restore_margin cooldown).action = "none") ∧
      (projected_end_kwh < max_hour_kwh - restore_margin →
        end_of_hour_safety_trigger max_hour_kwh current_power_kw
            remaining_minutes = false →
        (∃ l ∈ loads, l.enabled = true ∧
          l.timeout ≤ current_time - l.last_action_time) →
        (calculate_regulation_decision loads needed_reduction_kw
            projected_end_kwh max_hour_kwh current_time current_power_kw
            remaining_minutes restore_margin cooldown).action = "restore") := by
  constructor
  · intro heq
    unfold calculate_regulation_decision
    dsimp only
    rw [if_neg (not_lt.mpr hneed), heq, if_neg (lt_irrefl _)]
  · rintro hlt htrig ⟨l, hl, hen, hcool⟩
    have hmem : l ∈ loads.filter (fun l => l.enabled) :=
      List.mem_filter.mpr ⟨hl, hen⟩
    have hres_ne : ¬((loads.filter (fun l => l.enabled)).isEmpty = true) := by
      intro habs
      rw [List.isEmpty_iff] at habs
      rw [habs] at hmem
      simp at hmem
    have hpred : (!decide (current_time - l.last_action_time < l.timeout))
        = true := by
      have hnot : ¬(current_time - l.last_action_time < l.timeout) :=
        not_lt.mpr hcool
      simp [hnot]
    have hmem2 : l ∈ (sortedByPriorityDesc
        (loads.filter (fun l => l.enabled))).filter
          (fun l => !decide (current_time - l.last_action_time < l.timeout)) :=
      List.mem_filter.mpr ⟨mem_sortedByPriorityDesc.mpr hmem, hpred⟩
    have helig_ne : ¬(((sortedByPriorityDesc
        (loads.filter (fun l => l.enabled))).filter
          (fun l => !decide (current_time - l.last_action_time <
            l.timeout))).isEmpty = true) := by
      intro habs
      rw [List.isEmpty_iff] at habs
      rw [habs] at hmem2
      simp at hmem2
    unfold calculate_regulation_decision
    dsimp only
    rw [if_neg (not_lt.mpr hneed), if_pos hlt, htrig,
      if_neg (by simp : ¬(false = true)), if_neg hres_ne, if_neg helig_ne]

/-- Witness for the amended C5: the boundary case holds `"none"`, the
strictly-below case restores. -/
theorem c5_margin_boundary_witness :
    (calculate_regulation_decision [] 0 (49 / 10) 5 0 none none (1 / 10)
        120).action = "none" ∧
      (calculate_regulation_decision [pumpLoad] 0 0 5 1000 none none
          (1 / 10) 120).action = "restore" := by
  constructor
  · exact (c5_margin_boundary [] 0 (49 / 10) 5 0 none none (1 / 10) 120
      (by norm_num)).1 (by norm_num)
  · exact (c5_margin_boundary [pumpLoad] 0 0 5 1000 none none (1 / 10) 120
      (by norm_num)).2 (by norm_num) rfl
      ⟨pumpLoad, by simp, rfl, by norm_num [pumpLoad, baseSwitchLoad]⟩

/-- Claim C3: during reduction planning, a load that is off cooldown is
skipped whenever the accumulated reduction potential of the
lower-priority loads already recorded on cooldown covers the remaining
need (first conjunct, a step law of the selection loop); and when the
loop selects no load while the accumulated potential covers the full
needed reduction, the decision degrades to action `"none"` with a reason
naming the blocking loads and the soonest cooldown expiry (second
conjunct). -/
theorem c3_cooldown_deferral :
    (∀ (current_time : ℚ) (load : Load) (rest : List Load)
        (remaining : ℚ) (cds : List CooldownEntry),
      1 / 100 < remaining →
      load.timeout ≤ current_time - load.last_action_time →
      remaining ≤ totalPotential cds →
      reduceLoop current_time (load :: rest) remaining cds =
        reduceLoop current_time rest remaining cds) ∧
    (∀ (loads : List Load)
        (needed_reduction_kw projected_end_kwh max_hour_kwh
          current_time : ℚ)
        (current_power_kw remaining_minutes : Option ℚ)
        (restore_margin cooldown : ℚ),
      1 / 100 < needed_reduction_kw →
      (reduceLoop current_time
          (sortedByPriority (loads.filter (fun l => l.enabled)))
          needed_reduction_kw []).2.1 = [] →
      needed_reduction_kw ≤ totalPotential (reduceLoop current_time
          (sortedByPriority (loads.filter (fun l => l.enabled)))
          needed_reduction_kw []).2.2 →
      (calculate_regulation_decision loads needed_reduction_kw
          projected_end_kwh max_hour_kwh current_time current_power_kw
          remaining_minutes restore_margin cooldown).action = "none" ∧
        (calculate_regulation_decision loads needed_reduction_kw
            projected_end_kwh max_hour_kwh current_time current_power_kw
            remaining_minutes restore_margin cooldown).reason =
          Reason.waitingForCooldown needed_reduction_kw
            ((reduceLoop current_time
                (sortedByPriority (loads.filter (fun l => l.enabled)))
                needed_reduction_kw []).2.2.map (fun c => c.load.name))
            (totalPotential (reduceLoop current_time
                (sortedByPriority (loads.filter (fun l => l.enabled)))
                needed_reduction_kw []).2.2)
            (minCooldownRemaining (reduceLoop current_time
                (sortedByPriority (loads.filter (fun l => l.enabled)))
                needed_reduction_kw []).2.2)) := by
  constructor
  · intro t load rest remaining cds h1 h2 h3
    simp only [reduceLoop]
    rw [if_neg (not_le.mpr h1), if_neg (not_lt.mpr h2)]
    cases hinfo : _calculate_load_reduction load remaining with
    | none => simp only [hinfo]
    | some info =>
        simp only [hinfo]
        rw [if_pos h3]
  · intro loads needed_reduction_kw projected_end_kwh max_hour_kwh
      current_time current_power_kw remaining_minutes restore_margin
      cooldown hneed hplans htot
    unfold calculate_regulation_decision
    dsimp only
    rw [if_pos hneed, hplans]
    simp only [List.isEmpty_nil, if_true]
    rw [if_pos htot]
    exact ⟨rfl, rfl⟩

/-- Witness for C3 with `coolerLoad` on cooldown (potential 2 kW,
100 s remaining) blocking the reduction of `boilerLoad`. -/
theorem c3_cooldown_deferral_witness :
    (reduceLoop 1000 [boilerLoad] 1 [⟨coolerLoad, 2, 100⟩] =
        reduceLoop 1000 [] 1 [⟨coolerLoad, 2, 100⟩]) ∧
      ((calculate_regulation_decision [coolerLoad, boilerLoad] 1 6 5 1000
          none none (1 / 10) 120).action = "none" ∧
        (calculate_regulation_decision [coolerLoad, boilerLoad] 1 6 5 1000
            none none (1 / 10) 120).reason =
          Reason.waitingForCooldown 1
            ((reduceLoop 1000
                (sortedByPriority ([coolerLoad, boilerLoad].filter
                  (fun l => l.enabled))) 1 []).2.2.map
              (fun c => c.load.name))
            (totalPotential (reduceLoop 1000
                (sortedByPriority ([coolerLoad, boilerLoad].filter
                  (fun l => l.enabled))) 1 []).2.2)
            (minCooldownRemaining (reduceLoop 1000
                (sortedByPriority ([coolerLoad, boilerLoad].filter
                  (fun l => l.enabled))) 1 []).2.2)) := by
  constructor
  · exact c3_cooldown_deferral.1 1000 boilerLoad [] 1 [⟨coolerLoad, 2, 100⟩]
      (by norm_num) (by norm_num [boilerLoad, baseSwitchLoad])
      (by norm_num [totalPotential])
  · exact c3_cooldown_deferral.2 [coolerLoad, boilerLoad] 1 6 5 1000 none
      none (1 / 10) 120 (by norm_num)
      (by norm_num [reduceLoop, sortedByPriority, insertByPriority,
        coolerLoad, boilerLoad, baseSwitchLoad,
        _calculate_load_reduction_potential, _calculate_load_reduction,
        _calculate_switch_reduction, switch_reduction_kw, totalPotential,
        List.filter])
      (by norm_num [reduceLoop, sortedByPriority, insertByPriority,
        coolerLoad, boilerLoad, baseSwitchLoad,
        _calculate_load_reduction_potential, _calculate_load_reduction,
        _calculate_switch_reduction, switch_reduction_kw, totalPotential,
        List.filter])

/-- Claim C8: `calculate_effective_target` computes exactly the claimed
formula — base fraction derated to `min(baseFraction, 0.70)` iff power
and down-capacity are known, power is positive and the capacity ratio is
below 0.2; linear ramp of the fraction to 1 once
`minutesRemaining ≤ rampStartMinutes`; and at `minutesRemaining = 0`
(with a positive ramp-start window) the target equals `maxEnergy`. -/
theorem c8_effective_target (max_hour_kwh remaining_minutes : ℚ)
    (available_down_capacity_kw current_power_kw : Option ℚ)
    (base_fraction ramp_start_minutes : ℚ) :
    calculate_effective_target max_hour_kwh remaining_minutes
        available_down_capacity_kw current_power_kw base_fraction
        ramp_start_minutes =
      calculate_effective_target_spec max_hour_kwh remaining_minutes
        available_down_capacity_kw current_power_kw base_fraction
        ramp_start_minutes ∧
      (0 < ramp_start_minutes → remaining_minutes = 0 →
        (calculate_effective_target max_hour_kwh remaining_minutes
            available_down_capacity_kw current_power_kw base_fraction
            ramp_start_minutes).1 = max_hour_kwh) := by
  constructor
  · unfold calculate_effective_target calculate_effective_target_spec
    dsimp only
    cases current_power_kw with
    | none =>
        cases available_down_capacity_kw <;> dsimp only <;>
          split_ifs with h1 h2 <;> first | rfl | (exfalso; linarith)
    | some p =>
        cases available_down_capacity_kw with
        | none =>
            dsimp only
            split_ifs with h1 h2 <;> first | rfl | (exfalso; linarith)
        | some d =>
            dsimp only
            have h210 : (2 : ℚ) / 10 = 1 / 5 := by norm_num
            have h70 : (70 : ℚ) / 100 = 7 / 10 := by norm_num
            rw [h210, h70]
            split_ifs with h1 h2 h3 h4 <;>
              first
                | rfl
                | (exfalso; first | exact h3 ⟨h1, h2⟩ | tauto | linarith)
  · intro hrs hrm
    subst hrm
    unfold calculate_effective_target
    dsimp only
    rw [if_pos (le_of_lt hrs), zero_div]
    exact (by intro e; ring :
      ∀ e : ℚ, max_hour_kwh * (e + (1 - e) * (1 - 0)) = max_hour_kwh) _

/-- Witness for C8 at `remaining_minutes = 0`, `ramp_start = 15`. -/
theorem c8_effective_target_witness :
    calculate_effective_target 5 0 none none (3 / 4) 15 =
        calculate_effective_target_spec 5 0 none none (3 / 4) 15 ∧
      (calculate_effective_target 5 0 none none (3 / 4) 15).1 = 5 :=
  ⟨(c8_effective_target 5 0 none none (3 / 4) 15).1,
    (c8_effective_target 5 0 none none (3 / 4) 15).2 (by norm_num) rfl⟩

/-- Counterexample to claim C9 as stated: the switch load `mysteryLoad`
has unknown (`None`) switch state, yet the engine does not exclude it
from restoration — it appears in `loads_to_restore`. -/
theorem c9_counterexample :
    mysteryLoad.current_switch_state = none ∧
      mysteryLoad ∈ (calculate_regulation_decision [mysteryLoad] 0 0 5 1000
        none none (1 / 10) 120).loads_to_restore := by
  refine ⟨rfl, ?_⟩
  norm_num [calculate_regulation_decision, end_of_hour_safety_trigger,
    sortedByPriorityDesc, insertByPriorityDesc, mysteryLoad, baseSwitchLoad,
    List.filter]

/-- Claim C9 (amended): a switch load with unknown (`None`) switch state
is treated as potentially consuming for reduction — the planner returns a
plan for it rather than rejecting it — while for restoration the engine
does **not** exclude unknown-state loads: every enabled, off-cooldown
input load is in `loads_to_restore` whenever the action is `"restore"`,
regardless of its switch state (rejection of unknown states happens only
in the external executor). -/
theorem c9_unknown_state (loads : List Load)
    (needed_reduction_kw projected_end_kwh max_hour_kwh current_time : ℚ)
    (current_power_kw remaining_minutes : Option ℚ)
    (restore_margin cooldown : ℚ) :
    (∀ (load : Load) (needed : ℚ), load.load_type = LoadType.switch →
      load.current_switch_state = none →
      ∃ plan, _calculate_load_reduction load needed = some plan) ∧
    (∀ l ∈ loads, l.enabled = true →
      l.timeout ≤ current_time - l.last_action_time →
      (calculate_regulation_decision loads needed_reduction_kw
          projected_end_kwh max_hour_kwh current_time current_power_kw
          remaining_minutes restore_margin cooldown).action = "restore" →
      l ∈ (calculate_regulation_decision loads needed_reduction_kw
          projected_end_kwh max_hour_kwh current_time current_power_kw
          remaining_minutes restore_margin cooldown).loads_to_restore) := by
  constructor
  · intro load needed hty hst
    unfold _calculate_load_reduction
    rw [hty]
    cases hinv : load.switch_inverted <;>
      simp [_calculate_switch_reduction, hst, hinv]
  · intro l hl hen hcool hact
    rw [restore_action_shape loads needed_reduction_kw projected_end_kwh
      max_hour_kwh current_time current_power_kw remaining_minutes
      restore_margin cooldown hact]
    refine List.mem_filter.mpr
      ⟨mem_sortedByPriorityDesc.mpr (List.mem_filter.mpr ⟨hl, hen⟩), ?_⟩
    have hnot : ¬(current_time - l.last_action_time < l.timeout) :=
      not_lt.mpr hcool
    simp [hnot]

/-- Witness for the amended C9: the unknown-state `mysteryLoad` gets a
reduction plan and is restored-eligible in a concrete restore decision. -/
theorem c9_unknown_state_witness :
    (∃ plan, _calculate_load_reduction mysteryLoad 1 = some plan) ∧
      mysteryLoad ∈ (calculate_regulation_decision [mysteryLoad] 0 4 5 1000
        none none (1 / 10) 120).loads_to_restore := by
  constructor
  · exact (c9_unknown_state [mysteryLoad] 0 4 5 1000 none none (1 / 10)
      120).1 mysteryLoad 1 rfl rfl
  · exact (c9_unknown_state [mysteryLoad] 0 4 5 1000 none none (1 / 10)
      120).2 mysteryLoad (by simp) rfl
      (by norm_num [mysteryLoad, baseSwitchLoad])
      (by norm_num [calculate_regulation_decision,
        end_of_hour_safety_trigger, sortedByPriorityDesc,
        insertByPriorityDesc, mysteryLoad, baseSwitchLoad, List.filter])

end RvikRazor
